import Mathlib

/-!
Shallow embedding of `src/assets/scripts/carousel.js` (the `Carousel` view).

DOM elements are modelled by the marker-class state the carousel manipulates:
each slide element is represented by which of the two slide marker classes it
carries, each synthesized navigation trigger by whether it carries the active
nav marker class.  jQuery collections are lists in document order; a jQuery
`.eq` call is `jqEq`.  The marker classes are tracked per role, which is
faithful whenever the three configured marker class names are pairwise
distinct (as the defaults are).  Timers (`setInterval` / `clearInterval`) are
modelled by an explicit registry of interval registrations threaded through
`startSlideshow` / `stopSlideshow`; every interval registered by this code
invokes `goToNextSlide`, so a registration only needs to record its handle and
its millisecond interval.
-/

/-- The slide marker classes a slide element may carry: `active` is possession
of `ACTIVE_SLIDE_CLASS`, `inactive` is possession of `INACTIVE_SLIDE_CLASS`. -/
structure SlideClasses where
  active : Bool
  inactive : Bool
  deriving DecidableEq, Repr

/-- The slide-class state produced by
`.removeClass(ACTIVE_SLIDE_CLASS).addClass(INACTIVE_SLIDE_CLASS)`. -/
def inactiveSlide : SlideClasses := { active := false, inactive := true }

/-- The slide-class state produced by
`.removeClass(INACTIVE_SLIDE_CLASS).addClass(ACTIVE_SLIDE_CLASS)`. -/
def activeSlide : SlideClasses := { active := true, inactive := false }

/-- The keys of the carousel's selector object (`Carousel.SELECTORS_DEFAULT`). -/
inductive Role where
  | CAROUSEL
  | SLIDES_WRAP
  | TRIGGER_NEXT
  | TRIGGER_PREV
  | NAV_WRAP
  | ACTIVE_SLIDE_CLASS
  | INACTIVE_SLIDE_CLASS
  | ACTIVE_NAV_CLASS
  deriving DecidableEq, Repr

/-- A selector object: for each role, `none` means the key is absent from the
JavaScript object, `some s` means it is present with string value `s`. -/
structure Selectors where
  CAROUSEL : Option String := none
  SLIDES_WRAP : Option String := none
  TRIGGER_NEXT : Option String := none
  TRIGGER_PREV : Option String := none
  NAV_WRAP : Option String := none
  ACTIVE_SLIDE_CLASS : Option String := none
  INACTIVE_SLIDE_CLASS : Option String := none
  ACTIVE_NAV_CLASS : Option String := none
  deriving DecidableEq, Repr

/-- Look a role up in a selector object. -/
def Selectors.get (s : Selectors) : Role → Option String
  | .CAROUSEL => s.CAROUSEL
  | .SLIDES_WRAP => s.SLIDES_WRAP
  | .TRIGGER_NEXT => s.TRIGGER_NEXT
  | .TRIGGER_PREV => s.TRIGGER_PREV
  | .NAV_WRAP => s.NAV_WRAP
  | .ACTIVE_SLIDE_CLASS => s.ACTIVE_SLIDE_CLASS
  | .INACTIVE_SLIDE_CLASS => s.INACTIVE_SLIDE_CLASS
  | .ACTIVE_NAV_CLASS => s.ACTIVE_NAV_CLASS

/-- `Carousel.SELECTORS_DEFAULT` from the source, lines 161-170. -/
def SELECTORS_DEFAULT : Selectors where
  CAROUSEL := some ".carousel"
  SLIDES_WRAP := some ".carousel-slides"
  TRIGGER_NEXT := some ".carousel-next"
  TRIGGER_PREV := some ".carousel-prev"
  NAV_WRAP := some ".carousel-nav"
  ACTIVE_SLIDE_CLASS := some "carousel-item_isActive"
  INACTIVE_SLIDE_CLASS := some "carousel-item_isInactive"
  ACTIVE_NAV_CLASS := some "carousel-nav-item-active"

/-- JavaScript truthiness of `selectors[key]` for a string-valued (or absent)
property: `undefined` and the empty string are falsy, every other string is
truthy. -/
def jsFalsyStr : Option String → Bool
  | none => true
  | some s => s == ""

/-- One interval registration created by `setInterval`: its opaque handle and
its millisecond interval.  Every registration made by this component invokes
`goToNextSlide` on each tick. -/
structure IntervalReg where
  handle : Nat
  ms : Int
  deriving DecidableEq, Repr

/-- The host environment's timer registry: a fresh-handle counter and the list
of currently active interval registrations, in registration order. -/
structure TimerSys where
  nextHandle : Nat
  active : List IntervalReg
  deriving DecidableEq, Repr

/-- `setInterval(fn, ms)`: registers a new repeating interval and returns its
fresh handle.  Nothing is cancelled. -/
def jsSetInterval (sys : TimerSys) (ms : Int) : TimerSys × Nat :=
  (⟨sys.nextHandle + 1, sys.active ++ [⟨sys.nextHandle, ms⟩]⟩, sys.nextHandle)

/-- `clearInterval(h)`: cancels the registration with handle `h` if one is
active; `clearInterval(null)` (handle `none`) and clearing an absent handle
are no-ops. -/
def jsClearInterval (sys : TimerSys) (h : Option Nat) : TimerSys :=
  match h with
  | none => sys
  | some hh => ⟨sys.nextHandle, sys.active.filter (fun r => r.handle != hh)⟩

/-- The per-instance state of one `Carousel` (constructor, lines 16-129).
`slides` is the marker-class state of the `$slides` collection, `nav_items`
that of the synthesized `$nav_items` triggers (`true` = carries
`ACTIVE_NAV_CLASS`).  `currentSlide` models `$currentSlide`: `none` is the
initial `null`; `some none` is a truthy but empty jQuery set (the result of
`.eq` out of range); `some (some k)` wraps slide `k`.  The four handler
counters model how many copies of the corresponding handler are attached. -/
structure Carousel where
  selectors : Selectors
  timing : Int
  currentSlide : Option (Option Nat)
  currentIndex : Int
  numSlides : Nat
  timer : Option Nat
  isEnabled : Bool
  slides : List SlideClasses
  nav_items : List Bool
  mouseenter_handlers : Nat
  mouseleave_handlers : Nat
  next_click_handlers : Nat
  prev_click_handlers : Nat
  deriving DecidableEq, Repr

/-- jQuery `.eq(i)` on a collection of length `len`: a nonnegative `i` picks
index `i` when in range, a negative `i` counts from the end; otherwise the
result is the empty set (`none`). -/
def jqEq (len : Nat) (i : Int) : Option Nat :=
  if 0 ≤ i then
    if i < (len : Int) then some i.toNat else none
  else
    if 0 ≤ (len : Int) + i then some ((len : Int) + i).toNat else none

/-- Apply a `removeClass`/`addClass` pair (jointly writing both slide marker
flags to the constant `c`) to the element wrapped by a jQuery set over
`slides`: a no-op on the empty set. -/
def classSet (l : List SlideClasses) (k : Option Nat) (c : SlideClasses) :
    List SlideClasses :=
  match k with
  | none => l
  | some idx => l.set idx c

namespace Carousel

/-- `Carousel.prototype.setSelectors` (lines 181-190): for each key of
`SELECTORS_DEFAULT`, if `selectors[key]` is falsy it is overwritten with the
default.  Note the check is truthiness, not key presence. -/
def setSelectors (sel : Selectors) : Selectors where
  CAROUSEL :=
    if jsFalsyStr sel.CAROUSEL then SELECTORS_DEFAULT.CAROUSEL else sel.CAROUSEL
  SLIDES_WRAP :=
    if jsFalsyStr sel.SLIDES_WRAP then SELECTORS_DEFAULT.SLIDES_WRAP else sel.SLIDES_WRAP
  TRIGGER_NEXT :=
    if jsFalsyStr sel.TRIGGER_NEXT then SELECTORS_DEFAULT.TRIGGER_NEXT else sel.TRIGGER_NEXT
  TRIGGER_PREV :=
    if jsFalsyStr sel.TRIGGER_PREV then SELECTORS_DEFAULT.TRIGGER_PREV else sel.TRIGGER_PREV
  NAV_WRAP :=
    if jsFalsyStr sel.NAV_WRAP then SELECTORS_DEFAULT.NAV_WRAP else sel.NAV_WRAP
  ACTIVE_SLIDE_CLASS :=
    if jsFalsyStr sel.ACTIVE_SLIDE_CLASS then SELECTORS_DEFAULT.ACTIVE_SLIDE_CLASS
    else sel.ACTIVE_SLIDE_CLASS
  INACTIVE_SLIDE_CLASS :=
    if jsFalsyStr sel.INACTIVE_SLIDE_CLASS then SELECTORS_DEFAULT.INACTIVE_SLIDE_CLASS
    else sel.INACTIVE_SLIDE_CLASS
  ACTIVE_NAV_CLASS :=
    if jsFalsyStr sel.ACTIVE_NAV_CLASS then SELECTORS_DEFAULT.ACTIVE_NAV_CLASS
    else sel.ACTIVE_NAV_CLASS

/-- The `this.setSelectors()` step of `init`, updating the instance's
`selectors` property in place. -/
def setSelectorsM (s : Carousel) : Carousel :=
  { s with selectors := setSelectors s.selectors }

/-- `Carousel.prototype.goToSlide` (lines 356-385).  Normalizes the index,
moves the slide marker classes off the previous `$currentSlide` (when that
reference exists), strips `ACTIVE_NAV_CLASS` inside `$nav_wrap`, re-points
`$currentSlide` at `$slides.eq(index)`, marks the new slide and nav trigger,
and commits `currentIndex`. -/
def goToSlide (s : Carousel) (index : Int) : Carousel :=
  let index : Int :=
    if index ≥ (s.numSlides : Int) then 0
    else if index < 0 then (s.numSlides : Int) - 1
    else index
  let slides1 : List SlideClasses :=
    match s.currentSlide with
    | none => s.slides
    | some k => classSet s.slides k inactiveSlide
  let nav1 : List Bool := s.nav_items.map (fun _ => false)
  let cur2 : Option Nat := jqEq s.slides.length index
  let slides2 : List SlideClasses := classSet slides1 cur2 activeSlide
  let nav2 : List Bool :=
    match jqEq s.nav_items.length index with
    | none => nav1
    | some k => nav1.set k true
  { s with
    currentSlide := some cur2
    slides := slides2
    nav_items := nav2
    currentIndex := index }

/-- `Carousel.prototype.goToNextSlide` (lines 329-333). -/
def goToNextSlide (s : Carousel) : Carousel :=
  goToSlide s (s.currentIndex + 1)

/-- `Carousel.prototype.goToPreviousSlide` (lines 342-346). -/
def goToPreviousSlide (s : Carousel) : Carousel :=
  goToSlide s (s.currentIndex - 1)

/-- `Carousel.prototype.createChildren` (lines 215-242), given the number
`domSlides` of children the DOM's slide container holds.  The DOM slides
start with neither marker class; `$slides.not(null)` keeps every slide, so
all of them receive `INACTIVE_SLIDE_CLASS`; one classless `<a>` nav trigger is
appended per slide; finally `goToSlide(currentIndex)` establishes the initial
visual state. -/
def createChildren (s : Carousel) (domSlides : Nat) : Carousel :=
  let domClasses : List SlideClasses :=
    List.replicate domSlides { active := false, inactive := false }
  let s :=
    { s with
      numSlides := domSlides
      slides := domClasses.map (fun c => { c with inactive := true })
      nav_items := List.replicate domSlides false }
  goToSlide s s.currentIndex

/-- `Carousel.prototype.setupHandlers` (lines 200-205): only creates the bound
handler references (`$.proxy`); no observable state in the model changes. -/
def setupHandlers (s : Carousel) : Carousel := s

/-- `Carousel.prototype.enable` (lines 252-269): guarded by `isEnabled`;
attaches the mouseenter/mouseleave handlers to `$carousel` and one click
handler to each of the next and previous triggers, then sets the flag. -/
def enable (s : Carousel) : Carousel :=
  if s.isEnabled then s
  else
    { s with
      mouseenter_handlers := s.mouseenter_handlers + 1
      mouseleave_handlers := s.mouseleave_handlers + 1
      next_click_handlers := s.next_click_handlers + 1
      prev_click_handlers := s.prev_click_handlers + 1
      isEnabled := true }

/-- `Carousel.prototype.disable` (lines 279-290): guarded by `isEnabled`;
detaches every copy of the mouseenter and mouseleave handlers (the next/prev
click handlers are not detached), then clears the flag. -/
def disable (s : Carousel) : Carousel :=
  if !s.isEnabled then s
  else
    { s with
      mouseenter_handlers := 0
      mouseleave_handlers := 0
      isEnabled := false }

/-- `Carousel.prototype.startSlideshow` (lines 299-307): registers a new
interval firing `goToNextSlide` every `timing` milliseconds and stores its
handle in `this.timer`, overwriting whatever handle was stored before without
cancelling it. -/
def startSlideshow (s : Carousel) (sys : TimerSys) : Carousel × TimerSys :=
  let r := jsSetInterval sys s.timing
  ({ s with timer := some r.2 }, r.1)

/-- `Carousel.prototype.stopSlideshow` (lines 316-320): `clearInterval` on the
stored handle; the `timer` property itself is left unchanged. -/
def stopSlideshow (s : Carousel) (sys : TimerSys) : Carousel × TimerSys :=
  (s, jsClearInterval sys s.timer)

/-- The constructor's field initialization (lines 16-129): `selectors` is
`SELECTORS || {}` (an absent or null argument yields the empty object) and
`timing` is `TIMING || 4000` (absent, null or `0` — any falsy number — yields
4000); all remaining fields start at their documented defaults. -/
def initFields (SELECTORS : Option Selectors) (TIMING : Option Int) : Carousel where
  selectors := SELECTORS.getD {}
  timing :=
    match TIMING with
    | none => 4000
    | some t => if t == 0 then 4000 else t
  currentSlide := none
  currentIndex := 0
  numSlides := 0
  timer := none
  isEnabled := false
  slides := []
  nav_items := []
  mouseenter_handlers := 0
  mouseleave_handlers := 0
  next_click_handlers := 0
  prev_click_handlers := 0

/-- `Carousel.prototype.init` (lines 139-147): `setSelectors`, then
`createChildren`, `setupHandlers`, `enable`, `startSlideshow`. -/
def init (s : Carousel) (domSlides : Nat) (sys : TimerSys) : Carousel × TimerSys :=
  startSlideshow (enable (setupHandlers (createChildren (setSelectorsM s) domSlides))) sys

/-- `new Carousel(SELECTORS, TIMING)` on a page whose slide container holds
`domSlides` slides: field initialization followed by `init`. -/
def construct (domSlides : Nat) (SELECTORS : Option Selectors) (TIMING : Option Int)
    (sys : TimerSys) : Carousel × TimerSys :=
  init (initFields SELECTORS TIMING) domSlides sys

end Carousel

/-- One public index-mutating call on a carousel instance. -/
inductive Op where
  | go : Int → Op
  | next
  | prev
  deriving DecidableEq, Repr

/-- Apply one public index-mutating call. -/
def applyOp (s : Carousel) : Op → Carousel
  | .go i => s.goToSlide i
  | .next => s.goToNextSlide
  | .prev => s.goToPreviousSlide

/-- Apply a finite sequence of public index-mutating calls, in order. -/
def runOps (s : Carousel) : List Op → Carousel
  | [] => s
  | op :: ops => runOps (applyOp s op) ops

example :
    ((Carousel.construct 3 none none ⟨0, []⟩).1.goToNextSlide).currentIndex = 1 := by
  decide

example :
    (runOps (Carousel.construct 3 none none ⟨0, []⟩).1 [.next, .next, .next]).currentIndex
      = 0 := by
  decide

example :
    ((Carousel.construct 3 none none ⟨0, []⟩).1.goToSlide 8).currentIndex = 0 := by
  decide

example :
    (Carousel.construct 3 none none ⟨0, []⟩).1.slides
      = [activeSlide, inactiveSlide, inactiveSlide] := by
  decide

example :
    ((Carousel.construct 0 none none ⟨0, []⟩).1.goToPreviousSlide).currentIndex = -1 := by
  decide

/-! ## Helper lemmas -/

theorem classSet_length (l : List SlideClasses) (k : Option Nat) (c : SlideClasses) :
    (classSet l k c).length = l.length := by
  cases k <;> simp [classSet]

theorem classSet_nil (k : Option Nat) (c : SlideClasses) : classSet [] k c = [] := by
  cases k <;> rfl

/-- `goToSlide` in closed form: when the lengths of the element collections
agree with `numSlides` and there is at least one slide, the jQuery `.eq`
lookups hit the normalized index. -/
theorem goToSlide_closed_form (s : Carousel) (i : Int) (hn : 0 < s.numSlides)
    (hlen : s.slides.length = s.numSlides) (hnav : s.nav_items.length = s.numSlides) :
    s.goToSlide i =
      { s with
        currentSlide := some (some
          (if i ≥ (s.numSlides : Int) then (0 : Int)
           else if i < 0 then (s.numSlides : Int) - 1 else i).toNat)
        slides :=
          (match s.currentSlide with
           | none => s.slides
           | some k => classSet s.slides k inactiveSlide).set
            (if i ≥ (s.numSlides : Int) then (0 : Int)
             else if i < 0 then (s.numSlides : Int) - 1 else i).toNat activeSlide
        nav_items :=
          (s.nav_items.map (fun _ => false)).set
            (if i ≥ (s.numSlides : Int) then (0 : Int)
             else if i < 0 then (s.numSlides : Int) - 1 else i).toNat true
        currentIndex :=
          if i ≥ (s.numSlides : Int) then 0
          else if i < 0 then (s.numSlides : Int) - 1 else i } := by
  have hj : 0 ≤ (if i ≥ (s.numSlides : Int) then (0 : Int)
      else if i < 0 then (s.numSlides : Int) - 1 else i) ∧
      (if i ≥ (s.numSlides : Int) then (0 : Int)
       else if i < 0 then (s.numSlides : Int) - 1 else i) < (s.numSlides : Int) := by
    split_ifs <;> omega
  show
    (let index : Int :=
      if i ≥ (s.numSlides : Int) then 0
      else if i < 0 then (s.numSlides : Int) - 1 else i
    let slides1 : List SlideClasses :=
      match s.currentSlide with
      | none => s.slides
      | some k => classSet s.slides k inactiveSlide
    let nav1 : List Bool := s.nav_items.map (fun _ => false)
    let cur2 : Option Nat := jqEq s.slides.length index
    let slides2 : List SlideClasses := classSet slides1 cur2 activeSlide
    let nav2 : List Bool :=
      match jqEq s.nav_items.length index with
      | none => nav1
      | some k => nav1.set k true
    { s with
      currentSlide := some cur2
      slides := slides2
      nav_items := nav2
      currentIndex := index }) = _
  have heq : jqEq s.slides.length
      (if i ≥ (s.numSlides : Int) then (0 : Int)
       else if i < 0 then (s.numSlides : Int) - 1 else i)
      = some (if i ≥ (s.numSlides : Int) then (0 : Int)
       else if i < 0 then (s.numSlides : Int) - 1 else i).toNat := by
    rw [jqEq, if_pos hj.1, if_pos (by rw [hlen]; exact hj.2)]
  have heqn : jqEq s.nav_items.length
      (if i ≥ (s.numSlides : Int) then (0 : Int)
       else if i < 0 then (s.numSlides : Int) - 1 else i)
      = some (if i ≥ (s.numSlides : Int) then (0 : Int)
       else if i < 0 then (s.numSlides : Int) - 1 else i).toNat := by
    rw [jqEq, if_pos hj.1, if_pos (by rw [hnav]; exact hj.2)]
  simp only [heq, heqn, classSet]

/-! ## Claim C1: index normalization in goToSlide -/

/-- C1: for every carousel with `numSlides = N > 0` and every integer
`targetIndex`, `goToSlide(targetIndex)` sets `currentIndex` to exactly 0 when
`targetIndex >= N`, to `N - 1` when `targetIndex < 0`, and to `targetIndex`
otherwise; in particular `goToSlide(N + 5)` yields 0, not `5 % N`.  The
operation is total: out-of-range input is corrected, never rejected. -/
theorem goToSlide_normalizes_index (s : Carousel) (i : Int) (hn : 0 < s.numSlides) :
    (s.goToSlide i).currentIndex =
      (if i ≥ (s.numSlides : Int) then 0
       else if i < 0 then (s.numSlides : Int) - 1 else i) ∧
    (s.goToSlide ((s.numSlides : Int) + 5)).currentIndex = 0 ∧
    (5 % (s.numSlides : Int) ≠ 0 →
      (s.goToSlide ((s.numSlides : Int) + 5)).currentIndex ≠ 5 % (s.numSlides : Int)) := by
  have h1 : (s.goToSlide i).currentIndex =
      (if i ≥ (s.numSlides : Int) then 0
       else if i < 0 then (s.numSlides : Int) - 1 else i) := rfl
  have h5 : ((s.numSlides : Int) + 5 ≥ (s.numSlides : Int)) := by omega
  have h2 : (s.goToSlide ((s.numSlides : Int) + 5)).currentIndex = 0 := by
    show (if (s.numSlides : Int) + 5 ≥ (s.numSlides : Int) then (0 : Int)
       else if (s.numSlides : Int) + 5 < 0 then (s.numSlides : Int) - 1
       else (s.numSlides : Int) + 5) = 0
    rw [if_pos h5]
  exact ⟨h1, h2, fun hne => by rw [h2]; exact fun hc => hne hc.symm⟩

/-- Witness for C1 at a concrete carousel with three slides and target 7. -/
theorem goToSlide_normalizes_index_witness :
    (((Carousel.construct 3 none none ⟨0, []⟩).1.goToSlide 7).currentIndex =
      (if (7 : Int) ≥ ((Carousel.construct 3 none none ⟨0, []⟩).1.numSlides : Int) then 0
       else if (7 : Int) < 0
       then ((Carousel.construct 3 none none ⟨0, []⟩).1.numSlides : Int) - 1 else 7)) ∧
    ((Carousel.construct 3 none none ⟨0, []⟩).1.goToSlide
        (((Carousel.construct 3 none none ⟨0, []⟩).1.numSlides : Int) + 5)).currentIndex = 0 ∧
    (5 % (((Carousel.construct 3 none none ⟨0, []⟩).1.numSlides : Int)) ≠ 0 →
      ((Carousel.construct 3 none none ⟨0, []⟩).1.goToSlide
        (((Carousel.construct 3 none none ⟨0, []⟩).1.numSlides : Int) + 5)).currentIndex ≠
        5 % ((Carousel.construct 3 none none ⟨0, []⟩).1.numSlides : Int)) :=
  goToSlide_normalizes_index (Carousel.construct 3 none none ⟨0, []⟩).1 7 (by decide)

/-! ## Claim C3: setSelectors and falsy-but-present values -/

/-- C3 counterexample: the caller explicitly supplies the empty string for the
`CAROUSEL` role, yet `setSelectors` overwrites it with the default
`".carousel"` — the merge tests truthiness, not key presence, so a
falsy-but-present value is **not** preserved, refuting the claim as stated. -/
theorem setSelectors_overwrites_empty_string :
    (Carousel.setSelectors { CAROUSEL := some "" }).CAROUSEL = some ".carousel" ∧
    ¬ (Carousel.setSelectors { CAROUSEL := some "" }).CAROUSEL = some "" := by
  constructor
  · rfl
  · decide

/-- C3 (amended): `setSelectors` produces a complete mapping (every role ends
up with a value); a role takes its default exactly when the caller-supplied
value is falsy — absent **or** the empty string — and a truthy supplied value
is never overwritten. -/
theorem setSelectors_defaults_on_falsy (sel : Selectors) (r : Role) :
    ((Carousel.setSelectors sel).get r).isSome = true ∧
    (jsFalsyStr (sel.get r) = true →
      (Carousel.setSelectors sel).get r = SELECTORS_DEFAULT.get r) ∧
    (jsFalsyStr (sel.get r) = false →
      (Carousel.setSelectors sel).get r = sel.get r) := by
  have key : ∀ v dflt : Option String, dflt.isSome = true →
      ((if jsFalsyStr v then dflt else v).isSome = true ∧
        (jsFalsyStr v = true → (if jsFalsyStr v then dflt else v) = dflt) ∧
        (jsFalsyStr v = false → (if jsFalsyStr v then dflt else v) = v)) := by
    intro v dflt hd
    match v with
    | none => simpa [jsFalsyStr] using hd
    | some str =>
      simp only [jsFalsyStr]
      by_cases hb : str = ""
      · simp [hb, hd]
      · have hb2 : (str == "") = false := by simpa using hb
        simp [hb2]
  cases r <;> exact key _ _ rfl

/-- Witness for C3's amended theorem: a mapping supplying only a truthy
`NAV_WRAP` keeps it, and an absent `CAROUSEL` takes the default. -/
theorem setSelectors_defaults_on_falsy_witness :
    (((Carousel.setSelectors { NAV_WRAP := some ".dots" }).get Role.NAV_WRAP).isSome = true ∧
      (jsFalsyStr (Selectors.get { NAV_WRAP := some ".dots" } Role.NAV_WRAP) = true →
        (Carousel.setSelectors { NAV_WRAP := some ".dots" }).get Role.NAV_WRAP
          = SELECTORS_DEFAULT.get Role.NAV_WRAP) ∧
      (jsFalsyStr (Selectors.get { NAV_WRAP := some ".dots" } Role.NAV_WRAP) = false →
        (Carousel.setSelectors { NAV_WRAP := some ".dots" }).get Role.NAV_WRAP
          = Selectors.get { NAV_WRAP := some ".dots" } Role.NAV_WRAP)) ∧
    ((Carousel.setSelectors { NAV_WRAP := some ".dots" }).get Role.CAROUSEL
      = SELECTORS_DEFAULT.get Role.CAROUSEL) :=
  ⟨setSelectors_defaults_on_falsy { NAV_WRAP := some ".dots" } Role.NAV_WRAP,
   (setSelectors_defaults_on_falsy { NAV_WRAP := some ".dots" } Role.CAROUSEL).2.1 (by decide)⟩

/-! ## Claim C6: construction with zero slides is inert -/

/-- C6: when `numSlides == 0`, construction completes (it is a total
function of the model): the navigation-trigger synthesis loop performs zero
iterations (`nav_items` is the empty replication) and the initial render
marks nothing — both element lists stay empty, so no marker class is ever
applied; the carousel ends up inert with `currentIndex = 0` and
`$currentSlide` an empty jQuery set. -/
theorem construct_zero_slides_inert (S : Option Selectors) (T : Option Int)
    (sys : TimerSys) :
    (Carousel.construct 0 S T sys).1.numSlides = 0 ∧
    (Carousel.construct 0 S T sys).1.nav_items = List.replicate 0 false ∧
    (Carousel.construct 0 S T sys).1.slides = [] ∧
    (Carousel.construct 0 S T sys).1.currentIndex = 0 ∧
    (Carousel.construct 0 S T sys).1.currentSlide = some none :=
  ⟨rfl, rfl, rfl, rfl, rfl⟩

/-! ## Claim C8: enable/disable are guarded no-ops -/

/-- C8: `enable()` is a no-op when the carousel is already enabled and
`disable()` is a no-op when it is already disabled (both guarded by
`isEnabled`): repeated calls attach or detach no additional handlers and
leave the entire instance state unchanged; `enable()` sets `isEnabled` and
`disable()` clears it. -/
theorem enable_disable_guarded (s : Carousel) :
    (s.enable).isEnabled = true ∧
    (s.disable).isEnabled = false ∧
    s.enable.enable = s.enable ∧
    s.disable.disable = s.disable ∧
    (s.isEnabled = true → s.enable = s) ∧
    (s.isEnabled = false → s.disable = s) := by
  cases h : s.isEnabled <;>
    simp [Carousel.enable, Carousel.disable, h]

/-- Witness for C8 at two concrete instances: a freshly constructed carousel
(enabled by `init`) and a freshly field-initialized one (disabled). -/
theorem enable_disable_guarded_witness :
    (Carousel.construct 2 none none ⟨0, []⟩).1.enable
        = (Carousel.construct 2 none none ⟨0, []⟩).1 ∧
    (Carousel.initFields none none).disable = Carousel.initFields none none :=
  ⟨(enable_disable_guarded (Carousel.construct 2 none none ⟨0, []⟩).1).2.2.2.2.1 rfl,
   (enable_disable_guarded (Carousel.initFields none none)).2.2.2.2.2 rfl⟩

/-! ## Claim C9: goToSlide with numSlides == 0 -/

/-- C9: when `numSlides == 0` (so both element lists are empty) and
`currentIndex` is not yet positive — as in every reachable zero-slide state —
`goToPreviousSlide()`, like `goToSlide` of any negative index, sets
`currentIndex` to `numSlides - 1 = -1`, leaving the `[0, numSlides)` range,
while touching no marker classes; a subsequent `goToNextSlide()` or
`goToSlide` with a non-negative argument returns `currentIndex` to 0. -/
theorem zero_slides_previous_goes_to_minus_one (s : Carousel)
    (h0 : s.numSlides = 0) (hs : s.slides = []) (hn : s.nav_items = [])
    (hc : s.currentIndex ≤ 0) :
    (s.goToPreviousSlide).currentIndex = -1 ∧
    (∀ i : Int, i < 0 → (s.goToSlide i).currentIndex = -1) ∧
    (s.goToPreviousSlide).slides = s.slides ∧
    (s.goToPreviousSlide).nav_items = s.nav_items ∧
    (∀ i : Int, 0 ≤ i → (s.goToSlide i).currentIndex = 0) ∧
    (s.goToPreviousSlide.goToNextSlide).currentIndex = 0 := by
  have hgo : ∀ i : Int, (s.goToSlide i).currentIndex =
      (if i ≥ (s.numSlides : Int) then 0
       else if i < 0 then (s.numSlides : Int) - 1 else i) := fun _ => rfl
  have hneg : ∀ i : Int, i < 0 → (s.goToSlide i).currentIndex = -1 := by
    intro i hi
    rw [hgo, if_neg (by omega), if_pos hi, h0]
    rfl
  have hpos : ∀ i : Int, 0 ≤ i → (s.goToSlide i).currentIndex = 0 := by
    intro i hi
    rw [hgo, if_pos (by omega)]
  have hprev : (s.goToPreviousSlide).currentIndex = -1 :=
    hneg (s.currentIndex - 1) (by omega)
  refine ⟨hprev, hneg, ?_, ?_, hpos, ?_⟩
  · show (s.goToSlide (s.currentIndex - 1)).slides = s.slides
    cases hcs : s.currentSlide with
    | none => simp [Carousel.goToSlide, hs, hcs, classSet_nil]
    | some k => simp [Carousel.goToSlide, hs, hcs, classSet_nil]
  · show (s.goToSlide (s.currentIndex - 1)).nav_items = s.nav_items
    simp only [Carousel.goToSlide, hn]
    split <;> simp
  · show ((s.goToPreviousSlide).goToSlide ((s.goToPreviousSlide).currentIndex + 1)).currentIndex
      = 0
    have hnum : (s.goToPreviousSlide).numSlides = s.numSlides := rfl
    rw [hprev]
    have : ((s.goToPreviousSlide).goToSlide (-1 + 1)).currentIndex =
        (if (-1 + 1 : Int) ≥ ((s.goToPreviousSlide).numSlides : Int) then 0
         else if (-1 + 1 : Int) < 0 then ((s.goToPreviousSlide).numSlides : Int) - 1
         else -1 + 1) := rfl
    rw [this, if_pos (by rw [hnum, h0]; omega)]

/-- Witness for C9 at the concrete carousel constructed over zero slides. -/
theorem zero_slides_previous_goes_to_minus_one_witness :
    ((Carousel.construct 0 none none ⟨0, []⟩).1.goToPreviousSlide).currentIndex = -1 ∧
    (∀ i : Int, i < 0 →
      ((Carousel.construct 0 none none ⟨0, []⟩).1.goToSlide i).currentIndex = -1) ∧
    ((Carousel.construct 0 none none ⟨0, []⟩).1.goToPreviousSlide).slides
      = (Carousel.construct 0 none none ⟨0, []⟩).1.slides ∧
    ((Carousel.construct 0 none none ⟨0, []⟩).1.goToPreviousSlide).nav_items
      = (Carousel.construct 0 none none ⟨0, []⟩).1.nav_items ∧
    (∀ i : Int, 0 ≤ i →
      ((Carousel.construct 0 none none ⟨0, []⟩).1.goToSlide i).currentIndex = 0) ∧
    ((Carousel.construct 0 none none ⟨0, []⟩).1.goToPreviousSlide.goToNextSlide).currentIndex
      = 0 :=
  zero_slides_previous_goes_to_minus_one (Carousel.construct 0 none none ⟨0, []⟩).1
    rfl rfl rfl (by decide)

/-! ## Claim C10: constructor defaults on falsiness -/

/-- C10: the constructor substitutes defaults on falsiness, not absence: an
absent (`undefined`/`null`) or zero `TIMING` argument yields `timing = 4000`,
any nonzero value is kept; an absent `SELECTORS` argument yields the empty
object, so after `setSelectors` every role carries its default selector. -/
theorem constructor_defaults_on_falsy (S : Option Selectors) (T : Option Int) :
    (Carousel.initFields S none).timing = 4000 ∧
    (Carousel.initFields S (some 0)).timing = 4000 ∧
    (∀ t : Int, t ≠ 0 → (Carousel.initFields S (some t)).timing = t) ∧
    (Carousel.initFields none T).selectors = {} ∧
    (∀ r : Role,
      (Carousel.setSelectors (Carousel.initFields none T).selectors).get r
        = SELECTORS_DEFAULT.get r) := by
  refine ⟨rfl, rfl, fun t ht => ?_, rfl, fun r => ?_⟩
  · show (if t == 0 then 4000 else t) = t
    simp [ht]
  · cases r <;> rfl

/-- Witness for C10 at `TIMING = 7` and the `ACTIVE_NAV_CLASS` role. -/
theorem constructor_defaults_on_falsy_witness :
    (Carousel.initFields none (some 7)).timing = 7 ∧
    (Carousel.setSelectors (Carousel.initFields none none).selectors).get
        Role.ACTIVE_NAV_CLASS = SELECTORS_DEFAULT.get Role.ACTIVE_NAV_CLASS :=
  ⟨(constructor_defaults_on_falsy none (some 7)).2.2.1 7 (by decide),
   (constructor_defaults_on_falsy none none).2.2.2.2 Role.ACTIVE_NAV_CLASS⟩

/-! ## Claim C7: slideshow timer lifecycle -/

/-- C7: `startSlideshow()` always registers a new repeating interval (with
period `timing`, firing `goToNextSlide`) and overwrites the stored handle
without cancelling any existing registration — so calling it while a timer is
already running leaves two concurrent registrations; `stopSlideshow()`
cancels only the registration carrying the currently stored handle and leaves
the instance itself untouched, and calling it when the timer was never
started, or when its registration is already gone, changes nothing. -/
theorem slideshow_timer_lifecycle (s : Carousel) (sys : TimerSys) :
    ((s.startSlideshow sys).2.active
      = sys.active ++ [⟨sys.nextHandle, s.timing⟩]) ∧
    ((s.startSlideshow sys).1.timer = some sys.nextHandle) ∧
    (∀ r ∈ sys.active, r ∈ (s.startSlideshow sys).2.active) ∧
    ((⟨sys.nextHandle, s.timing⟩ : IntervalReg) ∈
        ((s.startSlideshow sys).1.startSlideshow (s.startSlideshow sys).2).2.active ∧
      (⟨(s.startSlideshow sys).2.nextHandle, s.timing⟩ : IntervalReg) ∈
        ((s.startSlideshow sys).1.startSlideshow (s.startSlideshow sys).2).2.active ∧
      sys.nextHandle ≠ (s.startSlideshow sys).2.nextHandle) ∧
    ((s.stopSlideshow sys).1 = s) ∧
    (s.timer = none → (s.stopSlideshow sys).2 = sys) ∧
    (∀ h : Nat, s.timer = some h →
      (∀ r ∈ sys.active, r.handle ≠ h → r ∈ (s.stopSlideshow sys).2.active) ∧
      (∀ r ∈ (s.stopSlideshow sys).2.active, r ∈ sys.active ∧ r.handle ≠ h)) ∧
    ((∀ r ∈ sys.active, some r.handle ≠ s.timer) → s.stopSlideshow sys = (s, sys)) := by
  refine ⟨rfl, rfl, ?_, ⟨?_, ?_, ?_⟩, rfl, fun hnone => ?_, fun h hsome => ⟨?_, ?_⟩,
    fun habs => ?_⟩
  · intro r hr
    simp [Carousel.startSlideshow, jsSetInterval]
    exact Or.inl hr
  · simp [Carousel.startSlideshow, jsSetInterval]
  · simp [Carousel.startSlideshow, jsSetInterval]
  · simp [Carousel.startSlideshow, jsSetInterval]
  · simp [Carousel.stopSlideshow, jsClearInterval, hnone]
  · intro r hr hne
    simp [Carousel.stopSlideshow, jsClearInterval, hsome]
    exact ⟨hr, hne⟩
  · intro r hr
    simp only [Carousel.stopSlideshow, jsClearInterval, hsome] at hr
    simp only [List.mem_filter, bne_iff_ne, ne_eq] at hr
    exact ⟨hr.1, by simpa using hr.2⟩
  · cases ht : s.timer with
    | none => simp [Carousel.stopSlideshow, jsClearInterval, ht]
    | some h =>
      have hall : ∀ r ∈ sys.active, (r.handle != h) = true := by
        intro r hr
        have := habs r hr
        rw [ht] at this
        simpa using fun hrh => this (by rw [hrh])
      simp only [Carousel.stopSlideshow, jsClearInterval, ht]
      rw [List.filter_eq_self.mpr hall]

/-- Witness for C7 at a concrete carousel (timer handle 0 stored, registry
holding exactly that one registration). -/
theorem slideshow_timer_lifecycle_witness :
    ((Carousel.construct 2 none none ⟨0, []⟩).1.startSlideshow
        (Carousel.construct 2 none none ⟨0, []⟩).2).2.active
      = (Carousel.construct 2 none none ⟨0, []⟩).2.active ++
        [⟨(Carousel.construct 2 none none ⟨0, []⟩).2.nextHandle,
          (Carousel.construct 2 none none ⟨0, []⟩).1.timing⟩] ∧
    ((Carousel.construct 2 none none ⟨0, []⟩).1.stopSlideshow
        (Carousel.construct 2 none none ⟨0, []⟩).2).2.active = [] :=
  have hmain := slideshow_timer_lifecycle (Carousel.construct 2 none none ⟨0, []⟩).1
    (Carousel.construct 2 none none ⟨0, []⟩).2
  ⟨hmain.1, by
    have hchar := (hmain.2.2.2.2.2.2.1 0 rfl).2
    cases hmem : ((Carousel.construct 2 none none ⟨0, []⟩).1.stopSlideshow
        (Carousel.construct 2 none none ⟨0, []⟩).2).2.active with
    | nil => rfl
    | cons r rest =>
      exact absurd ((hchar r (by rw [hmem]; exact List.mem_cons_self r rest)).2)
        (by
          have hr : r ∈ (Carousel.construct 2 none none ⟨0, []⟩).2.active := by
            exact (hchar r (by rw [hmem]; exact List.mem_cons_self r rest)).1
          have : (Carousel.construct 2 none none ⟨0, []⟩).2.active = [⟨0, 4000⟩] := by decide
          rw [this] at hr
          simp only [List.mem_singleton] at hr
          subst hr
          simp)⟩

/-! ## Claim C5: the render step is idempotent -/

/-- C5: for every carousel state with `numSlides > 0` (and element collections
of matching length) and every valid index `i`, calling `goToSlide(i)` twice in
a row produces exactly the same `currentIndex`, slide marker classes, nav
marker classes and `$currentSlide` reference as calling it once; the statement
quantifies over every `currentSlide` value, including the bind-time `null`, so
the render step tolerates being invoked when no slide was previously
active. -/
theorem goToSlide_idempotent (s : Carousel) (i : Int)
    (hn : 0 < s.numSlides) (hlen : s.slides.length = s.numSlides)
    (hnav : s.nav_items.length = s.numSlides)
    (h0 : 0 ≤ i) (hi : i < (s.numSlides : Int)) :
    ((s.goToSlide i).goToSlide i).currentIndex = (s.goToSlide i).currentIndex ∧
    ((s.goToSlide i).goToSlide i).slides = (s.goToSlide i).slides ∧
    ((s.goToSlide i).goToSlide i).nav_items = (s.goToSlide i).nav_items ∧
    ((s.goToSlide i).goToSlide i).currentSlide = (s.goToSlide i).currentSlide := by
  have hnorm : (if i ≥ (s.numSlides : Int) then (0 : Int)
      else if i < 0 then (s.numSlides : Int) - 1 else i) = i := by
    rw [if_neg (by omega), if_neg (by omega)]
  have h1 := goToSlide_closed_form s i hn hlen hnav
  rw [hnorm] at h1
  have hnum : (s.goToSlide i).numSlides = s.numSlides := by rw [h1]
  have hn' : 0 < (s.goToSlide i).numSlides := by rw [hnum]; exact hn
  have hlen' : (s.goToSlide i).slides.length = (s.goToSlide i).numSlides := by
    rw [h1]
    show ((match s.currentSlide with
      | none => s.slides
      | some k => classSet s.slides k inactiveSlide).set i.toNat activeSlide).length
        = s.numSlides
    rw [List.length_set]
    cases s.currentSlide with
    | none => exact hlen
    | some k => rw [classSet_length]; exact hlen
  have hnav' : (s.goToSlide i).nav_items.length = (s.goToSlide i).numSlides := by
    rw [h1]
    show (((s.nav_items.map (fun _ => false)).set i.toNat true)).length = s.numSlides
    rw [List.length_set, List.length_map]
    exact hnav
  have h2 := goToSlide_closed_form (s.goToSlide i) i hn' hlen' hnav'
  rw [hnum, hnorm] at h2
  refine ⟨?_, ?_, ?_, ?_⟩
  · conv_lhs => rw [h2]
    simp only [h1]
  · conv_lhs => rw [h2]
    show (match (s.goToSlide i).currentSlide with
      | none => (s.goToSlide i).slides
      | some k => classSet (s.goToSlide i).slides k inactiveSlide).set i.toNat activeSlide
        = (s.goToSlide i).slides
    simp only [h1, classSet]
    rw [List.set_set, List.set_set]
  · conv_lhs => rw [h2]
    show ((s.goToSlide i).nav_items.map (fun _ => false)).set i.toNat true
      = (s.goToSlide i).nav_items
    simp only [h1]
    rw [List.map_set, List.map_map]
    rw [List.set_set]
    rfl
  · conv_lhs => rw [h2]
    simp only [h1]

/-- Witness for C5 at a freshly constructed three-slide carousel and index 1. -/
theorem goToSlide_idempotent_witness :
    ((((Carousel.construct 3 none none ⟨0, []⟩).1.goToSlide 1).goToSlide 1).currentIndex
        = ((Carousel.construct 3 none none ⟨0, []⟩).1.goToSlide 1).currentIndex) ∧
    ((((Carousel.construct 3 none none ⟨0, []⟩).1.goToSlide 1).goToSlide 1).slides
        = ((Carousel.construct 3 none none ⟨0, []⟩).1.goToSlide 1).slides) ∧
    ((((Carousel.construct 3 none none ⟨0, []⟩).1.goToSlide 1).goToSlide 1).nav_items
        = ((Carousel.construct 3 none none ⟨0, []⟩).1.goToSlide 1).nav_items) ∧
    ((((Carousel.construct 3 none none ⟨0, []⟩).1.goToSlide 1).goToSlide 1).currentSlide
        = ((Carousel.construct 3 none none ⟨0, []⟩).1.goToSlide 1).currentSlide) :=
  goToSlide_idempotent (Carousel.construct 3 none none ⟨0, []⟩).1 1
    (by decide) (by decide) (by decide) (by decide) (by decide)

/-! ## The marker invariant (claims C2 and C4) -/

/-- The reachable-state invariant for a carousel over `n > 0` slides: some
`k < n` is the current index, `$currentSlide` wraps slide `k`, slide `k`
alone carries the active marker while all others carry the inactive marker,
and nav trigger `k` alone carries the active nav marker. -/
def MarkerInv (n : Nat) (s : Carousel) : Prop :=
  s.numSlides = n ∧ ∃ k : Nat, k < n ∧ s.currentIndex = (k : Int) ∧
    s.currentSlide = some (some k) ∧
    s.slides = (List.replicate n inactiveSlide).set k activeSlide ∧
    s.nav_items = (List.replicate n false).set k true

/-- `goToSlide 0` from a state whose slides are all inactive and whose nav
triggers are all unmarked (the state `createChildren` reaches just before its
final render call) establishes the marker invariant. -/
theorem markerInv_goToSlide_zero (s : Carousel) (n : Nat) (hn : 0 < n)
    (hns : s.numSlides = n) (hcs : s.currentSlide = none)
    (hsl : s.slides = List.replicate n inactiveSlide)
    (hnv : s.nav_items = List.replicate n false) :
    MarkerInv n (s.goToSlide 0) := by
  have hn0 : 0 < s.numSlides := by omega
  have hlen : s.slides.length = s.numSlides := by
    rw [hsl, List.length_replicate, hns]
  have hnav : s.nav_items.length = s.numSlides := by
    rw [hnv, List.length_replicate, hns]
  rw [goToSlide_closed_form s 0 hn0 hlen hnav]
  have hnorm : (if (0 : Int) ≥ (s.numSlides : Int) then (0 : Int)
      else if (0 : Int) < 0 then (s.numSlides : Int) - 1 else 0) = 0 := by
    rw [if_neg (by omega), if_neg (by omega)]
  rw [hnorm, hcs]
  refine ⟨hns, 0, hn, rfl, rfl, ?_, ?_⟩
  · show s.slides.set (0 : Int).toNat activeSlide
      = (List.replicate n inactiveSlide).set 0 activeSlide
    rw [hsl]
    rfl
  · show (s.nav_items.map (fun _ => false)).set (0 : Int).toNat true
      = (List.replicate n false).set 0 true
    rw [hnv, List.map_replicate]
    rfl

theorem markerInv_createChildren (s : Carousel) (n : Nat) (hn : 0 < n)
    (hcs : s.currentSlide = none) (hci : s.currentIndex = 0) :
    MarkerInv n (s.createChildren n) := by
  show MarkerInv n (Carousel.goToSlide
    { s with
      numSlides := n
      slides := (List.replicate n ({ active := false, inactive := false } : SlideClasses)).map
        (fun c => { c with inactive := true })
      nav_items := List.replicate n false }
    s.currentIndex)
  rw [hci]
  exact markerInv_goToSlide_zero _ n hn rfl hcs
    (by rw [List.map_replicate]; rfl) rfl

/-- `goToSlide` preserves the marker invariant for every target index. -/
theorem markerInv_goToSlide (n : Nat) (hn : 0 < n) (s : Carousel) (i : Int)
    (h : MarkerInv n s) : MarkerInv n (s.goToSlide i) := by
  obtain ⟨hns, k, hk, hci, hcs, hsl, hnv⟩ := h
  have hn0 : 0 < s.numSlides := by omega
  have hlen : s.slides.length = s.numSlides := by
    rw [hsl, List.length_set, List.length_replicate, hns]
  have hnav : s.nav_items.length = s.numSlides := by
    rw [hnv, List.length_set, List.length_replicate, hns]
  rw [goToSlide_closed_form s i hn0 hlen hnav]
  have hj0 : 0 ≤ (if i ≥ (s.numSlides : Int) then (0 : Int)
      else if i < 0 then (s.numSlides : Int) - 1 else i) := by
    split_ifs <;> omega
  have hjlt : (if i ≥ (s.numSlides : Int) then (0 : Int)
      else if i < 0 then (s.numSlides : Int) - 1 else i) < (n : Int) := by
    split_ifs <;> omega
  refine ⟨hns, (if i ≥ (s.numSlides : Int) then (0 : Int)
      else if i < 0 then (s.numSlides : Int) - 1 else i).toNat, by omega, ?_, rfl, ?_, ?_⟩
  · show (if i ≥ (s.numSlides : Int) then (0 : Int)
      else if i < 0 then (s.numSlides : Int) - 1 else i)
      = ((if i ≥ (s.numSlides : Int) then (0 : Int)
        else if i < 0 then (s.numSlides : Int) - 1 else i).toNat : Int)
    rw [Int.toNat_of_nonneg hj0]
  · show (match s.currentSlide with
      | none => s.slides
      | some kk => classSet s.slides kk inactiveSlide).set
        (if i ≥ (s.numSlides : Int) then (0 : Int)
         else if i < 0 then (s.numSlides : Int) - 1 else i).toNat activeSlide
      = (List.replicate n inactiveSlide).set
        (if i ≥ (s.numSlides : Int) then (0 : Int)
         else if i < 0 then (s.numSlides : Int) - 1 else i).toNat activeSlide
    rw [hcs]
    show (classSet s.slides (some k) inactiveSlide).set
        (if i ≥ (s.numSlides : Int) then (0 : Int)
         else if i < 0 then (s.numSlides : Int) - 1 else i).toNat activeSlide
      = _
    rw [classSet, hsl, List.set_set, List.set_replicate_self]
  · show (s.nav_items.map (fun _ => false)).set
        (if i ≥ (s.numSlides : Int) then (0 : Int)
         else if i < 0 then (s.numSlides : Int) - 1 else i).toNat true
      = (List.replicate n false).set
        (if i ≥ (s.numSlides : Int) then (0 : Int)
         else if i < 0 then (s.numSlides : Int) - 1 else i).toNat true
    rw [hnv, List.map_set, List.map_replicate, List.set_replicate_self]

/-- Every public index-mutating call preserves the marker invariant. -/
theorem markerInv_applyOp (n : Nat) (hn : 0 < n) (s : Carousel) (op : Op)
    (h : MarkerInv n s) : MarkerInv n (applyOp s op) := by
  cases op with
  | go i => exact markerInv_goToSlide n hn s i h
  | next => exact markerInv_goToSlide n hn s (s.currentIndex + 1) h
  | prev => exact markerInv_goToSlide n hn s (s.currentIndex - 1) h

/-- Any finite call sequence preserves the marker invariant. -/
theorem markerInv_runOps (n : Nat) (hn : 0 < n) :
    ∀ (ops : List Op) (s : Carousel), MarkerInv n s → MarkerInv n (runOps s ops)
  | [], _, h => h
  | op :: ops, s, h =>
    markerInv_runOps n hn ops (applyOp s op) (markerInv_applyOp n hn s op h)

/-- A freshly constructed carousel over `n > 0` slides satisfies the marker
invariant. -/
theorem markerInv_construct (n : Nat) (hn : 0 < n) (S : Option Selectors)
    (T : Option Int) (sys : TimerSys) :
    MarkerInv n (Carousel.construct n S T sys).1 := by
  obtain ⟨hns, k, hk, hci, hcs, hsl, hnv⟩ :=
    markerInv_createChildren (Carousel.setSelectorsM (Carousel.initFields S T)) n hn rfl rfl
  exact ⟨hns, k, hk, hci, hcs, hsl, hnv⟩

/-! ## Claim C2: exactly one active slide and nav trigger -/

/-- C2: for every carousel constructed over `N > 0` slides, after construction
and after any finite sequence of `goToSlide` / `goToNextSlide` /
`goToPreviousSlide` calls, there is one index `k` — equal to `currentIndex` —
such that the slide at `k` alone carries the active marker (and not the
inactive one), every other slide carries the inactive marker (and not the
active one), and the nav trigger at `k` alone carries the active nav
marker. -/
theorem marker_class_invariant (n : Nat) (hn : 0 < n) (S : Option Selectors)
    (T : Option Int) (sys : TimerSys) (ops : List Op) :
    ∃ k : Nat, k < n ∧
      (runOps (Carousel.construct n S T sys).1 ops).currentIndex = (k : Int) ∧
      (runOps (Carousel.construct n S T sys).1 ops).slides
        = (List.replicate n inactiveSlide).set k activeSlide ∧
      (runOps (Carousel.construct n S T sys).1 ops).nav_items
        = (List.replicate n false).set k true ∧
      (∀ j : Nat, ∀ hj : j < (runOps (Carousel.construct n S T sys).1 ops).slides.length,
        (runOps (Carousel.construct n S T sys).1 ops).slides[j]
          = if j = k then activeSlide else inactiveSlide) ∧
      (∀ j : Nat, ∀ hj : j < (runOps (Carousel.construct n S T sys).1 ops).nav_items.length,
        (runOps (Carousel.construct n S T sys).1 ops).nav_items[j] = decide (j = k)) := by
  obtain ⟨hns, k, hk, hci, hcs, hsl, hnv⟩ :=
    markerInv_runOps n hn ops _ (markerInv_construct n hn S T sys)
  refine ⟨k, hk, hci, hsl, hnv, ?_, ?_⟩
  · intro j hj
    simp only [hsl, List.getElem_set, List.getElem_replicate]
    by_cases hjk : j = k
    · subst hjk
      simp
    · rw [if_neg (fun hc => hjk hc.symm), if_neg hjk]
  · intro j hj
    simp only [hnv, List.getElem_set, List.getElem_replicate]
    by_cases hjk : j = k
    · subst hjk
      simp
    · rw [if_neg (fun hc => hjk hc.symm)]
      simp [hjk]

/-- Witness for C2: three slides, the call sequence next, goToSlide 5,
previous. -/
theorem marker_class_invariant_witness :
    ∃ k : Nat, k < 3 ∧
      (runOps (Carousel.construct 3 none none ⟨0, []⟩).1
        [Op.next, Op.go 5, Op.prev]).currentIndex = (k : Int) ∧
      (runOps (Carousel.construct 3 none none ⟨0, []⟩).1
        [Op.next, Op.go 5, Op.prev]).slides
        = (List.replicate 3 inactiveSlide).set k activeSlide ∧
      (runOps (Carousel.construct 3 none none ⟨0, []⟩).1
        [Op.next, Op.go 5, Op.prev]).nav_items
        = (List.replicate 3 false).set k true ∧
      (∀ j : Nat, ∀ hj : j < (runOps (Carousel.construct 3 none none ⟨0, []⟩).1
          [Op.next, Op.go 5, Op.prev]).slides.length,
        (runOps (Carousel.construct 3 none none ⟨0, []⟩).1
          [Op.next, Op.go 5, Op.prev]).slides[j]
          = if j = k then activeSlide else inactiveSlide) ∧
      (∀ j : Nat, ∀ hj : j < (runOps (Carousel.construct 3 none none ⟨0, []⟩).1
          [Op.next, Op.go 5, Op.prev]).nav_items.length,
        (runOps (Carousel.construct 3 none none ⟨0, []⟩).1
          [Op.next, Op.go 5, Op.prev]).nav_items[j] = decide (j = k)) :=
  marker_class_invariant 3 (by decide) none none ⟨0, []⟩ [Op.next, Op.go 5, Op.prev]

/-! ## Claim C4: goToNextSlide cycles through all indices -/

theorem goToNextSlide_mod (n : Nat) (hn : 0 < n) (s : Carousel) (m : Nat)
    (h : MarkerInv n s) (hm : s.currentIndex = (m : Int)) (hmn : m < n) :
    (s.goToNextSlide).currentIndex = (((m + 1) % n : Nat) : Int) := by
  obtain ⟨hns, k, hk, hci, hcs, hsl, hnv⟩ := h
  have hcur : (s.goToNextSlide).currentIndex =
      (if s.currentIndex + 1 ≥ (s.numSlides : Int) then 0
       else if s.currentIndex + 1 < 0 then (s.numSlides : Int) - 1
       else s.currentIndex + 1) := rfl
  rw [hcur, hm, hns]
  rcases Nat.lt_or_ge (m + 1) n with hlt | hge
  · rw [if_neg (by omega), if_neg (by omega), Nat.mod_eq_of_lt hlt]
    push_cast
    ring
  · have hmn1 : m + 1 = n := by omega
    rw [if_pos (by omega), hmn1, Nat.mod_self]
    rfl

theorem runOps_replicate_next (n : Nat) (hn : 0 < n) :
    ∀ (kk : Nat) (s : Carousel) (m : Nat), MarkerInv n s →
      s.currentIndex = (m : Int) → m < n →
      (runOps s (List.replicate kk Op.next)).currentIndex = (((m + kk) % n : Nat) : Int)
  | 0, s, m, _, hm, hmn => by
    show s.currentIndex = (((m + 0) % n : Nat) : Int)
    rw [hm, Nat.add_zero, Nat.mod_eq_of_lt hmn]
  | kk + 1, s, m, h, hm, hmn => by
    have h1 : MarkerInv n s.goToNextSlide :=
      markerInv_goToSlide n hn s (s.currentIndex + 1) h
    have h2 := goToNextSlide_mod n hn s m h hm hmn
    have h3 := runOps_replicate_next n hn kk s.goToNextSlide ((m + 1) % n) h1 h2
      (Nat.mod_lt _ hn)
    show (runOps s.goToNextSlide (List.replicate kk Op.next)).currentIndex = _
    rw [h3, Nat.mod_add_mod]
    have harith : m + 1 + kk = m + (kk + 1) := by omega
    rw [harith]

theorem construct_currentIndex (n : Nat) (S : Option Selectors) (T : Option Int)
    (sys : TimerSys) : (Carousel.construct n S T sys).1.currentIndex = 0 := by
  show (if (0 : Int) ≥ (n : Int) then (0 : Int)
    else if (0 : Int) < 0 then (n : Int) - 1 else 0) = 0
  split_ifs <;> omega

/-- C4: for every carousel constructed over `N > 0` slides (which starts at
`currentIndex = 0`), after `k` consecutive `goToNextSlide()` calls the
current index is exactly `k % N`; hence the calls visit 1, 2, ..., N-1 in
order and the N-th call returns the index to 0 (a full cycle), and for N = 1
a single call leaves the index at 0. -/
theorem goToNextSlide_full_cycle (n : Nat) (hn : 0 < n) (S : Option Selectors)
    (T : Option Int) (sys : TimerSys) (k : Nat) :
    (runOps (Carousel.construct n S T sys).1 (List.replicate k Op.next)).currentIndex
      = ((k % n : Nat) : Int) := by
  have h := runOps_replicate_next n hn k (Carousel.construct n S T sys).1 0
    (markerInv_construct n hn S T sys) (construct_currentIndex n S T sys) hn
  rw [h, Nat.zero_add]

/-- Witness for C4: three slides, three consecutive next calls return the
index to 0 = 3 % 3. -/
theorem goToNextSlide_full_cycle_witness :
    (runOps (Carousel.construct 3 none none ⟨0, []⟩).1
      (List.replicate 3 Op.next)).currentIndex = ((3 % 3 : Nat) : Int) :=
  goToNextSlide_full_cycle 3 (by decide) none none ⟨0, []⟩ 3
